import Mathlib

/-!
Shallow embedding of the smartpark parking front-end logic: the occupancy
aggregator (MapView), the slot-grid reservation guard (SlotGrid), the
reservation confirm/cancel workflows (Dashboard, Profile), the system-status
classifier (SystemStatusIndicator), and the map-marker renderer with its
single/double activation gesture (GoogleMapComponent/MapTilerMap).

Numbers coming from the JavaScript runtime are modelled as rationals, backend
rows as structures with string status fields, and each event handler as a pure
function from its inputs to the new local state plus the trace of backend
operations, toasts and console logs it emits.
-/

namespace SmartPark

/-- A row of the `slots` table as used by the front-end: identity, ordinal
number, and a string status (normally one of "free", "occupied", "reserved"). -/
structure Slot where
  id : String
  slot_number : Nat
  status : String
deriving DecidableEq, Repr

/-- The derived occupancy record built by `fetchParkingAreasWithOccupancy`
for one parking area (MapView.tsx): three counts and a percentage. -/
structure OccupancySnapshot where
  freeSlots : Nat
  occupiedSlots : Nat
  reservedSlots : Nat
  occupancyPercentage : ℚ
deriving DecidableEq, Repr

/-- Occupancy aggregation from MapView.tsx lines 62-66: each count filters the
slot list by exact string equality on `status`; the percentage divides
occupied + reserved by the area's declared `total_slots` (not by the list
length) and multiplies by 100, and is 0 when `total_slots` is 0. -/
def computeOccupancy (slots : List Slot) (total_slots : Nat) : OccupancySnapshot :=
  { freeSlots := (slots.filter (fun s => s.status == "free")).length
    occupiedSlots := (slots.filter (fun s => s.status == "occupied")).length
    reservedSlots := (slots.filter (fun s => s.status == "reserved")).length
    occupancyPercentage :=
      if 0 < total_slots then
        ((((slots.filter (fun s => s.status == "occupied")).length : ℚ)
            + ((slots.filter (fun s => s.status == "reserved")).length : ℚ))
          / (total_slots : ℚ)) * 100
      else 0 }

/-- The spec scenario slot list: 6 free, 3 occupied, 1 reserved. -/
def scenarioSlots : List Slot :=
  [{ id := "s1", slot_number := 1, status := "free" },
   { id := "s2", slot_number := 2, status := "free" },
   { id := "s3", slot_number := 3, status := "free" },
   { id := "s4", slot_number := 4, status := "free" },
   { id := "s5", slot_number := 5, status := "free" },
   { id := "s6", slot_number := 6, status := "free" },
   { id := "s7", slot_number := 7, status := "occupied" },
   { id := "s8", slot_number := 8, status := "occupied" },
   { id := "s9", slot_number := 9, status := "occupied" },
   { id := "s10", slot_number := 10, status := "reserved" }]

/-- C1: for every slot list and declared capacity, the aggregation returns the
counts of slots whose status is exactly "free", "occupied" and "reserved", and
the percentage equals 100 × (occupied + reserved) / total when total > 0 and
0 when total = 0, regardless of the slot contents. -/
theorem occupancy_counts_and_percentage (slots : List Slot) (total : Nat) :
    (computeOccupancy slots total).freeSlots
        = (slots.filter (fun s => s.status == "free")).length
    ∧ (computeOccupancy slots total).occupiedSlots
        = (slots.filter (fun s => s.status == "occupied")).length
    ∧ (computeOccupancy slots total).reservedSlots
        = (slots.filter (fun s => s.status == "reserved")).length
    ∧ (0 < total →
        (computeOccupancy slots total).occupancyPercentage
          = 100 * (((computeOccupancy slots total).occupiedSlots : ℚ)
              + ((computeOccupancy slots total).reservedSlots : ℚ)) / (total : ℚ))
    ∧ (total = 0 → (computeOccupancy slots total).occupancyPercentage = 0) := by
  refine ⟨rfl, rfl, rfl, ?_, ?_⟩
  · intro ht
    simp only [computeOccupancy, if_pos ht]
    ring
  · intro ht
    subst ht
    simp [computeOccupancy]

/-- Witness for C1: the spec scenario (total 10, 6 free / 3 occupied /
1 reserved) yields counts 6/3/1 and percentage 40. -/
theorem occupancy_counts_and_percentage_witness :
    (computeOccupancy scenarioSlots 10).freeSlots = 6
    ∧ (computeOccupancy scenarioSlots 10).occupiedSlots = 3
    ∧ (computeOccupancy scenarioSlots 10).reservedSlots = 1
    ∧ (computeOccupancy scenarioSlots 10).occupancyPercentage = 40 := by
  have h := occupancy_counts_and_percentage scenarioSlots 10
  refine ⟨?_, ?_, ?_, ?_⟩
  · rw [h.1]; rfl
  · rw [h.2.1]; rfl
  · rw [h.2.2.1]; rfl
  · rw [h.2.2.2.1 (by norm_num), h.2.1, h.2.2.1]
    have h2 : (scenarioSlots.filter (fun s => s.status == "occupied")).length = 3 := rfl
    have h3 : (scenarioSlots.filter (fun s => s.status == "reserved")).length = 1 := rfl
    rw [h2, h3]
    norm_num

/-- Helper: three pairwise-incompatible boolean tests partition at most the
whole list, so the filtered lengths sum to at most the list length. -/
theorem length_filter_three_le (p q r : Slot → Bool)
    (hpq : ∀ a, p a = true → q a = false)
    (hpr : ∀ a, p a = true → r a = false)
    (hqr : ∀ a, q a = true → r a = false) :
    ∀ l : List Slot,
      (l.filter p).length + (l.filter q).length + (l.filter r).length ≤ l.length := by
  intro l
  induction l with
  | nil => simp
  | cons a t ih =>
    simp only [List.filter_cons, List.length_cons]
    cases hp : p a with
    | true =>
      have hq := hpq a hp
      have hr := hpr a hp
      simp only [hq, hr, if_true, if_false, Bool.false_eq_true, List.length_cons]
      omega
    | false =>
      cases hq : q a with
      | true =>
        have hr := hqr a hq
        simp only [hr, if_true, if_false, Bool.false_eq_true, List.length_cons]
        omega
      | false =>
        cases hr : r a with
        | true =>
          simp only [if_true, if_false, Bool.false_eq_true, List.length_cons]
          omega
        | false =>
          simp only [if_false, Bool.false_eq_true]
          omega

/-- Two slots both "occupied" against a declared capacity of 1. -/
def overfullSlots : List Slot :=
  [{ id := "a", slot_number := 1, status := "occupied" },
   { id := "b", slot_number := 2, status := "occupied" }]

/-- C2 counterexample: with declared capacity 1 (which is > 0) and two occupied
slots the aggregator's percentage is 200, so the claimed bound
occupancyPercentage ≤ 100 fails — the capacity is independent of the slot
list, and the code divides by it without clamping. -/
theorem occupancy_percentage_can_exceed_100 :
    ¬ ((computeOccupancy overfullSlots 1).occupancyPercentage ≤ 100) := by
  have h2 : (overfullSlots.filter (fun s => s.status == "occupied")).length = 2 := rfl
  have h3 : (overfullSlots.filter (fun s => s.status == "reserved")).length = 0 := rfl
  simp only [computeOccupancy, h2, h3]
  norm_num

/-- C2 amended: for every slot list and capacity > 0, the three counts sum to
at most the number of slots and the percentage is nonnegative; the upper bound
100 holds only under the extra assumption occupied + reserved ≤ total. -/
theorem occupancy_bounds (slots : List Slot) (total : Nat) (ht : 0 < total) :
    (computeOccupancy slots total).freeSlots + (computeOccupancy slots total).occupiedSlots
        + (computeOccupancy slots total).reservedSlots ≤ slots.length
    ∧ 0 ≤ (computeOccupancy slots total).occupancyPercentage
    ∧ ((computeOccupancy slots total).occupiedSlots
          + (computeOccupancy slots total).reservedSlots ≤ total →
        (computeOccupancy slots total).occupancyPercentage ≤ 100) := by
  have htq : (0 : ℚ) < (total : ℚ) := by exact_mod_cast ht
  refine ⟨?_, ?_, ?_⟩
  · apply length_filter_three_le
    · intro a h
      rw [beq_iff_eq] at h
      simp [h]
    · intro a h
      rw [beq_iff_eq] at h
      simp [h]
    · intro a h
      rw [beq_iff_eq] at h
      simp [h]
  · simp only [computeOccupancy, if_pos ht]
    positivity
  · intro hsum
    simp only [computeOccupancy, if_pos ht]
    simp only [computeOccupancy] at hsum
    have h1 : (((slots.filter (fun s => s.status == "occupied")).length : ℚ)
        + ((slots.filter (fun s => s.status == "reserved")).length : ℚ)) / (total : ℚ) ≤ 1 := by
      rw [div_le_one htq]
      exact_mod_cast hsum
    calc (((slots.filter (fun s => s.status == "occupied")).length : ℚ)
            + ((slots.filter (fun s => s.status == "reserved")).length : ℚ))
          / (total : ℚ) * 100
        ≤ 1 * 100 := by
          exact mul_le_mul_of_nonneg_right h1 (by norm_num)
      _ = 100 := by norm_num

/-- Witness for the amended C2: the spec scenario with total 10 satisfies the
hypotheses, and the bounds evaluate. -/
theorem occupancy_bounds_witness :
    (computeOccupancy scenarioSlots 10).freeSlots + (computeOccupancy scenarioSlots 10).occupiedSlots
        + (computeOccupancy scenarioSlots 10).reservedSlots ≤ scenarioSlots.length
    ∧ 0 ≤ (computeOccupancy scenarioSlots 10).occupancyPercentage
    ∧ (computeOccupancy scenarioSlots 10).occupancyPercentage ≤ 100 := by
  have h := occupancy_bounds scenarioSlots 10 (by norm_num)
  refine ⟨h.1, h.2.1, h.2.2 ?_⟩
  show (computeOccupancy scenarioSlots 10).occupiedSlots
      + (computeOccupancy scenarioSlots 10).reservedSlots ≤ 10
  decide

/-- SlotGrid.tsx line 55: the slot button carries disabled={slot.status !== 'free'}. -/
def slotButtonDisabled (slot : Slot) : Bool :=
  slot.status != "free"

/-- SlotGrid.tsx line 56: one click runs `slot.status === 'free' && onReserveSlot(slot.id)`;
the result lists the slot ids passed to the reserve callback by that click. -/
def slotClickCallbacks (slot : Slot) : List String :=
  if slot.status == "free" then [slot.id] else []

/-- C3: for every slot whose status is not "free" the button is disabled and a
click invokes the reserve callback zero times, so no reservation insert or
slot update can be issued for a non-free slot from the grid. -/
theorem nonfree_slot_click_rejected (slot : Slot) (h : slot.status ≠ "free") :
    slotButtonDisabled slot = true ∧ slotClickCallbacks slot = [] := by
  constructor
  · simp [slotButtonDisabled, h]
  · simp [slotClickCallbacks, h]

/-- Witness for C3: an occupied slot is disabled and its click fires no callback. -/
theorem nonfree_slot_click_rejected_witness :
    slotButtonDisabled { id := "x", slot_number := 4, status := "occupied" } = true
    ∧ slotClickCallbacks { id := "x", slot_number := 4, status := "occupied" } = [] :=
  nonfree_slot_click_rejected { id := "x", slot_number := 4, status := "occupied" } (by decide)

/-- An operation sent to the hosted backend: the reservation insert, the two
status updates, or a select (re-fetch) query on a table. -/
inductive BackendOp
  | insertReservation (user_id slot_id start_time end_time status : String)
  | updateSlot (slot_id status : String)
  | updateReservation (reservation_id status : String)
  | selectQuery (table : String)
deriving DecidableEq, Repr

/-- Whether a backend operation is a read (re-fetch) rather than a write. -/
def BackendOp.isSelect : BackendOp → Bool
  | BackendOp.selectQuery _ => true
  | _ => false

/-- A toast shown to the user. -/
inductive Notice
  | errorToast (msg : String)
  | successToast (msg : String)
deriving DecidableEq, Repr

/-- The Dashboard local state touched by the confirm handler: the fetched slot
list, the ids in the user-reservation set, and the dialog's slot id. -/
structure DashboardState where
  slots : List Slot
  userReservations : List String
  reserveSlotId : String
deriving DecidableEq, Repr

/-- Result of running the confirm handler: new local state, the backend
operations issued in order, and the toasts shown. -/
structure ConfirmResult where
  state : DashboardState
  ops : List BackendOp
  notices : List Notice
deriving DecidableEq, Repr

/-- Dashboard handleConfirmReservation (src/unnamed/part_000 lines 440-466):
guard on `!user || !reserveSlotId`; insert a reservation row with status
"active"; on insert error toast and stop; otherwise update the slot row to
"reserved", toast success, clear the dialog id and append the slot id to the
user-reservation set. `insertFails` models the backend response to the insert;
the slot update's response is never inspected by the code. -/
def handleConfirmReservation (user : Option String) (st : DashboardState)
    (startTime endTime : String) (insertFails : Bool) : ConfirmResult :=
  match user with
  | none => { state := st, ops := [], notices := [] }
  | some uid =>
    if st.reserveSlotId == "" then { state := st, ops := [], notices := [] }
    else
      let ins := BackendOp.insertReservation uid st.reserveSlotId startTime endTime "active"
      if insertFails then
        { state := st
          ops := [ins]
          notices := [Notice.errorToast "Failed to create reservation"] }
      else
        { state := { slots := st.slots
                     userReservations := st.userReservations ++ [st.reserveSlotId]
                     reserveSlotId := "" }
          ops := [ins, BackendOp.updateSlot st.reserveSlotId "reserved"]
          notices := [Notice.successToast "Slot reserved successfully!"] }

/-- A concrete Dashboard state: one locally "free" slot, selected in the dialog. -/
def confirmDemoState : DashboardState :=
  { slots := [{ id := "s1", slot_number := 1, status := "free" }]
    userReservations := []
    reserveSlotId := "s1" }

/-- C4 counterexample: on a successful confirm the backend write setting the
slot to "reserved" is issued, yet no slot in the local slot list ever holds
status "reserved" afterwards — the local slot-state is not optimistically
updated (it is refreshed only by the realtime subscription re-fetch); only the
user-reservation set is updated locally. -/
theorem local_slot_state_not_updated :
    BackendOp.updateSlot "s1" "reserved"
        ∈ (handleConfirmReservation (some "u1") confirmDemoState "t0" "t1" false).ops
    ∧ ¬ (∃ s, s ∈ (handleConfirmReservation (some "u1") confirmDemoState "t0" "t1" false).state.slots
          ∧ s.status = "reserved") := by
  constructor
  · decide
  · decide

/-- C4 amended: on success of the backend insert the slot's status is written
to "reserved" by a backend update, exactly one entry — the reserved slot's
id — is appended to the user-reservation set, the user-reservation set is
updated locally with no re-fetch issued by the handler, and the local slot
list is left unchanged (it is refreshed only by the slots subscription). -/
theorem confirm_success_updates (u : String) (st : DashboardState) (t0 t1 : String)
    (hsid : st.reserveSlotId ≠ "") :
    BackendOp.updateSlot st.reserveSlotId "reserved"
        ∈ (handleConfirmReservation (some u) st t0 t1 false).ops
    ∧ (handleConfirmReservation (some u) st t0 t1 false).state.userReservations
        = st.userReservations ++ [st.reserveSlotId]
    ∧ (handleConfirmReservation (some u) st t0 t1 false).state.slots = st.slots
    ∧ ((handleConfirmReservation (some u) st t0 t1 false).ops.filter BackendOp.isSelect) = [] := by
  have hsid' : (st.reserveSlotId == "") = false := by
    simp [beq_iff_eq, hsid]
  refine ⟨?_, ?_, ?_, ?_⟩
  · simp [handleConfirmReservation, hsid']
  · simp [handleConfirmReservation, hsid']
  · simp [handleConfirmReservation, hsid']
  · simp [handleConfirmReservation, hsid', BackendOp.isSelect]

/-- Witness for the amended C4 at the concrete demo state. -/
theorem confirm_success_updates_witness :
    BackendOp.updateSlot "s1" "reserved"
        ∈ (handleConfirmReservation (some "u1") confirmDemoState "t0" "t1" false).ops
    ∧ (handleConfirmReservation (some "u1") confirmDemoState "t0" "t1" false).state.userReservations
        = confirmDemoState.userReservations ++ ["s1"]
    ∧ (handleConfirmReservation (some "u1") confirmDemoState "t0" "t1" false).state.slots
        = confirmDemoState.slots
    ∧ ((handleConfirmReservation (some "u1") confirmDemoState "t0" "t1" false).ops.filter
          BackendOp.isSelect) = [] :=
  confirm_success_updates "u1" confirmDemoState "t0" "t1" (by decide)

/-- C5: with a signed-in user and a selected slot, reservation creation issues
exactly the two writes, in order: the reservation insert with status "active"
then the slot update to "reserved"; and when the insert fails the user gets an
error toast, the slot update is never attempted (the insert is the only
operation issued), and no local state is mutated. -/
theorem reservation_write_order (u : String) (st : DashboardState) (t0 t1 : String)
    (hsid : st.reserveSlotId ≠ "") :
    (handleConfirmReservation (some u) st t0 t1 false).ops
        = [BackendOp.insertReservation u st.reserveSlotId t0 t1 "active",
           BackendOp.updateSlot st.reserveSlotId "reserved"]
    ∧ (handleConfirmReservation (some u) st t0 t1 true).ops
        = [BackendOp.insertReservation u st.reserveSlotId t0 t1 "active"]
    ∧ (handleConfirmReservation (some u) st t0 t1 true).notices
        = [Notice.errorToast "Failed to create reservation"]
    ∧ (handleConfirmReservation (some u) st t0 t1 true).state = st := by
  have hsid' : (st.reserveSlotId == "") = false := by
    simp [beq_iff_eq, hsid]
  refine ⟨?_, ?_, ?_, ?_⟩ <;> simp [handleConfirmReservation, hsid']

/-- Witness for C5 at the concrete demo state. -/
theorem reservation_write_order_witness :
    (handleConfirmReservation (some "u1") confirmDemoState "t0" "t1" false).ops
        = [BackendOp.insertReservation "u1" "s1" "t0" "t1" "active",
           BackendOp.updateSlot "s1" "reserved"]
    ∧ (handleConfirmReservation (some "u1") confirmDemoState "t0" "t1" true).ops
        = [BackendOp.insertReservation "u1" "s1" "t0" "t1" "active"]
    ∧ (handleConfirmReservation (some "u1") confirmDemoState "t0" "t1" true).notices
        = [Notice.errorToast "Failed to create reservation"]
    ∧ (handleConfirmReservation (some "u1") confirmDemoState "t0" "t1" true).state
        = confirmDemoState :=
  reservation_write_order "u1" confirmDemoState "t0" "t1" (by decide)

/-- A row of the `reservations` table as used by the Profile screen. -/
structure Reservation where
  id : String
  user_id : String
  slot_id : String
  start_time : String
  end_time : String
  status : String
deriving DecidableEq, Repr

/-- Result of running the cancel handler: new local reservation list, backend
operations in order, toasts, and console log lines. -/
structure CancelResult where
  reservations : List Reservation
  ops : List BackendOp
  notices : List Notice
  logs : List String
deriving DecidableEq, Repr

/-- Profile handleCancelReservation (src/unnamed/part_000 lines 56-88): update
the reservation row to "cancelled"; on error log, toast and return with nothing
else done; otherwise update the slot row to "free" — an error there is only
logged — then rewrite the matching local reservation to "cancelled" and toast
success. The two Bool arguments model the backend responses. -/
def handleCancelReservation (reservations : List Reservation)
    (reservationId slotId : String)
    (reservationUpdateFails slotUpdateFails : Bool) : CancelResult :=
  let resW := BackendOp.updateReservation reservationId "cancelled"
  if reservationUpdateFails then
    { reservations := reservations
      ops := [resW]
      notices := [Notice.errorToast "Failed to cancel reservation"]
      logs := ["Error cancelling reservation"] }
  else
    { reservations := reservations.map (fun r =>
        if r.id == reservationId then
          { id := r.id, user_id := r.user_id, slot_id := r.slot_id
            start_time := r.start_time, end_time := r.end_time, status := "cancelled" }
        else r)
      ops := [resW, BackendOp.updateSlot slotId "free"]
      notices := [Notice.successToast "Reservation cancelled successfully"]
      logs := if slotUpdateFails then ["Error updating slot status"] else [] }

/-- Profile line 107: the list shown in the "Active Reservations" card. -/
def activeReservations (rs : List Reservation) : List Reservation :=
  rs.filter (fun r => r.status == "active")

/-- C6: cancelling issues the reservation update to "cancelled" and then the
slot update to "free"; if the reservation update fails the operation aborts
with an error toast, no slot write and no local change; if it succeeds — even
when the subsequent slot update fails, which is only logged and never rolled
back — the matching local reservation is set to "cancelled" and thereby drops
out of the filtered active-reservations view. -/
theorem cancel_reservation_behavior (rs : List Reservation) (rid sid : String)
    (slotFails : Bool) :
    ((handleCancelReservation rs rid sid true slotFails).ops
        = [BackendOp.updateReservation rid "cancelled"]
      ∧ (handleCancelReservation rs rid sid true slotFails).reservations = rs
      ∧ (handleCancelReservation rs rid sid true slotFails).notices
          = [Notice.errorToast "Failed to cancel reservation"])
    ∧ ((handleCancelReservation rs rid sid false slotFails).ops
        = [BackendOp.updateReservation rid "cancelled", BackendOp.updateSlot sid "free"]
      ∧ (∀ r, r ∈ (handleCancelReservation rs rid sid false slotFails).reservations →
            r.id = rid → r.status = "cancelled")
      ∧ (∀ r, r ∈ activeReservations
              (handleCancelReservation rs rid sid false slotFails).reservations →
            r.id ≠ rid)
      ∧ (handleCancelReservation rs rid sid false slotFails).logs
          = (if slotFails = true then ["Error updating slot status"] else [])
      ∧ (handleCancelReservation rs rid sid false slotFails).notices
          = [Notice.successToast "Reservation cancelled successfully"]) := by
  have hres : (handleCancelReservation rs rid sid false slotFails).reservations
      = rs.map (fun r0 =>
          if r0.id == rid then
            { id := r0.id, user_id := r0.user_id, slot_id := r0.slot_id
              start_time := r0.start_time, end_time := r0.end_time, status := "cancelled" }
          else r0) := rfl
  have hcanc : ∀ r, r ∈ (handleCancelReservation rs rid sid false slotFails).reservations →
      r.id = rid → r.status = "cancelled" := by
    intro r hr hid
    rw [hres, List.mem_map] at hr
    obtain ⟨r0, _, hr0⟩ := hr
    by_cases h0 : r0.id = rid
    · have hb : (r0.id == rid) = true := by simp [beq_iff_eq, h0]
      rw [if_pos hb] at hr0
      rw [← hr0]
    · have hb : (r0.id == rid) = false := by simp [beq_iff_eq, h0]
      rw [hb] at hr0
      simp only [Bool.false_eq_true, if_false] at hr0
      rw [← hr0] at hid
      exact absurd hid h0
  refine ⟨⟨rfl, rfl, rfl⟩, rfl, hcanc, ?_, ?_, rfl⟩
  · intro r hr
    simp only [activeReservations, List.mem_filter] at hr
    obtain ⟨hmem, hact⟩ := hr
    intro hid
    have hc : r.status = "cancelled" := hcanc r hmem hid
    rw [beq_iff_eq, hc] at hact
    exact absurd hact (by decide)
  · cases slotFails <;> rfl

/-- A demo reservation list with one active reservation. -/
def demoReservations : List Reservation :=
  [{ id := "r1", user_id := "u1", slot_id := "s1"
     start_time := "t0", end_time := "t1", status := "active" }]

/-- Witness for C6 at a concrete cancellation whose slot update fails. -/
theorem cancel_reservation_behavior_witness :
    (handleCancelReservation demoReservations "r1" "s1" false true).ops
        = [BackendOp.updateReservation "r1" "cancelled", BackendOp.updateSlot "s1" "free"]
    ∧ (handleCancelReservation demoReservations "r1" "s1" false true).logs
        = ["Error updating slot status"]
    ∧ (handleCancelReservation demoReservations "r1" "s1" false true).notices
        = [Notice.successToast "Reservation cancelled successfully"]
    ∧ (handleCancelReservation demoReservations "r1" "s1" true true).reservations
        = demoReservations :=
  ⟨(cancel_reservation_behavior demoReservations "r1" "s1" true).2.1,
   ((cancel_reservation_behavior demoReservations "r1" "s1" true).2.2.2.2.1).trans (by decide),
   (cancel_reservation_behavior demoReservations "r1" "s1" true).2.2.2.2.2,
   (cancel_reservation_behavior demoReservations "r1" "s1" true).1.2.1⟩

/-- The three-level health classification of SystemStatusIndicator.tsx. -/
inductive StatusLevel
  | healthy
  | warning
  | critical
deriving DecidableEq, Repr

/-- A row of the `system_status` table: heartbeat as epoch milliseconds. -/
structure SystemStatus where
  system_id : String
  last_heartbeat : Int
  status : String
  location : Option String
deriving DecidableEq, Repr

/-- SystemStatusIndicator.tsx line 52: minutes elapsed since the heartbeat,
floored (`Math.floor`), from epoch-millisecond clock values. -/
def diffMinutes (now lastHeartbeat : Int) : Int :=
  Int.fdiv (now - lastHeartbeat) 60000

/-- calculateStatusLevel (SystemStatusIndicator.tsx lines 49-73): "online"
means healthy whatever the heartbeat age, "offline" means critical, and any
other status string means critical; the second component is the last-seen
text set alongside. -/
def calculateStatusLevel (lastHeartbeat : Int) (currentStatus : String) (now : Int) :
    StatusLevel × String :=
  let d := diffMinutes now lastHeartbeat
  if currentStatus == "online" then
    (StatusLevel.healthy, if d == 0 then "Just now" else toString d ++ " min ago")
  else if currentStatus == "offline" then
    (StatusLevel.critical,
      if d < 60 then toString d ++ " min ago" else toString (Int.fdiv d 60) ++ "h ago")
  else
    (StatusLevel.critical, "Unknown")

/-- fetchSystemStatus outcome (SystemStatusIndicator.tsx lines 20-47): `none`
models the error / no-row-found response of the single-row query, which sets
critical and "Never"; a row runs the classifier. The triple is the stored
record, the status level and the last-seen text. -/
def fetchOutcome (record : Option SystemStatus) (now : Int) :
    Option SystemStatus × StatusLevel × String :=
  match record with
  | none => (none, StatusLevel.critical, "Never")
  | some d => (some d, calculateStatusLevel d.last_heartbeat d.status now)

/-- C7: the classifier yields healthy exactly when the status string is
"online" irrespective of heartbeat age, critical for "offline", critical for
every other status string, and when no record is found for the systemId the
level is critical with last-seen text "Never". -/
theorem status_classification (record : Option SystemStatus) (now : Int) :
    (∀ d, record = some d → d.status = "online" →
        (fetchOutcome record now).2.1 = StatusLevel.healthy)
    ∧ (∀ d, record = some d → d.status = "offline" →
        (fetchOutcome record now).2.1 = StatusLevel.critical)
    ∧ (∀ d, record = some d → d.status ≠ "online" → d.status ≠ "offline" →
        (fetchOutcome record now).2.1 = StatusLevel.critical)
    ∧ (record = none →
        (fetchOutcome record now).2.1 = StatusLevel.critical
        ∧ (fetchOutcome record now).2.2 = "Never") := by
  refine ⟨?_, ?_, ?_, ?_⟩
  · intro d hd hs
    subst hd
    simp [fetchOutcome, calculateStatusLevel, hs]
  · intro d hd hs
    subst hd
    simp [fetchOutcome, calculateStatusLevel, hs]
  · intro d hd hs1 hs2
    subst hd
    have b1 : (d.status == "online") = false := by simp [beq_iff_eq, hs1]
    have b2 : (d.status == "offline") = false := by simp [beq_iff_eq, hs2]
    simp [fetchOutcome, calculateStatusLevel, b1, b2]
  · intro hd
    subst hd
    exact ⟨rfl, rfl⟩

/-- Witness for C7: a record whose heartbeat is two hours old but whose status
is "online" classifies healthy, and the missing-record case gives critical
with "Never". -/
theorem status_classification_witness :
    (fetchOutcome (some { system_id := "m1", last_heartbeat := 0
                          status := "online", location := none }) 7200000).2.1
        = StatusLevel.healthy
    ∧ (fetchOutcome (none : Option SystemStatus) 7200000).2.1 = StatusLevel.critical
    ∧ (fetchOutcome (none : Option SystemStatus) 7200000).2.2 = "Never" :=
  ⟨(status_classification
      (some { system_id := "m1", last_heartbeat := 0, status := "online", location := none })
      7200000).1
    { system_id := "m1", last_heartbeat := 0, status := "online", location := none } rfl rfl,
   ((status_classification (none : Option SystemStatus) 7200000).2.2.2 rfl).1,
   ((status_classification (none : Option SystemStatus) 7200000).2.2.2 rfl).2⟩

/-- The component state of SystemStatusIndicator: the stored record, the level
and the last-seen text (lines 16-18; the level starts at critical). -/
structure MonitorState where
  systemStatus : Option SystemStatus
  statusLevel : StatusLevel
  lastSeenText : String
deriving DecidableEq, Repr

/-- Events that drive the indicator: a fetch resolving (with or without a
row), a subscription payload for the watched systemId, the 30-second timer
tick re-deriving from the stored record, and a systemId change resetting the
component. -/
inductive MonitorEvent
  | fetchResult (record : Option SystemStatus) (now : Int)
  | subscriptionPayload (record : SystemStatus) (now : Int)
  | timerTick (now : Int)
  | systemIdChange
deriving DecidableEq, Repr

/-- Initial component state (lines 16-18). -/
def initialMonitorState : MonitorState :=
  { systemStatus := none, statusLevel := StatusLevel.critical, lastSeenText := "" }

/-- One step of the indicator: fetch error sets critical/"Never"; fetch data
and subscription payloads run the classifier; the timer re-derives from the
stored record when one is present (lines 106-116); a systemId change resets
to critical/"Loading..." (lines 75-79). -/
def monitorStep (st : MonitorState) (e : MonitorEvent) : MonitorState :=
  match e with
  | MonitorEvent.fetchResult none _ =>
    { systemStatus := none, statusLevel := StatusLevel.critical, lastSeenText := "Never" }
  | MonitorEvent.fetchResult (some d) now =>
    { systemStatus := some d
      statusLevel := (calculateStatusLevel d.last_heartbeat d.status now).1
      lastSeenText := (calculateStatusLevel d.last_heartbeat d.status now).2 }
  | MonitorEvent.subscriptionPayload d now =>
    { systemStatus := some d
      statusLevel := (calculateStatusLevel d.last_heartbeat d.status now).1
      lastSeenText := (calculateStatusLevel d.last_heartbeat d.status now).2 }
  | MonitorEvent.timerTick now =>
    match st.systemStatus with
    | some d =>
      { systemStatus := st.systemStatus
        statusLevel := (calculateStatusLevel d.last_heartbeat d.status now).1
        lastSeenText := (calculateStatusLevel d.last_heartbeat d.status now).2 }
    | none => st
  | MonitorEvent.systemIdChange =>
    { systemStatus := none, statusLevel := StatusLevel.critical, lastSeenText := "Loading..." }

/-- The indicator state after a sequence of events from the initial state. -/
def runMonitor (events : List MonitorEvent) : MonitorState :=
  events.foldl monitorStep initialMonitorState

/-- Helper: the classifier only ever returns healthy or critical. -/
theorem calculateStatusLevel_not_warning (hb : Int) (s : String) (now : Int) :
    (calculateStatusLevel hb s now).1 = StatusLevel.healthy
    ∨ (calculateStatusLevel hb s now).1 = StatusLevel.critical := by
  unfold calculateStatusLevel
  by_cases h1 : (s == "online") = true
  · simp [h1]
  · by_cases h2 : (s == "offline") = true
    · simp [h1, h2]
    · simp [h1, h2]

/-- Helper: one monitor step keeps the level in {healthy, critical}. -/
theorem monitorStep_not_warning (st : MonitorState) (e : MonitorEvent)
    (h : st.statusLevel = StatusLevel.healthy ∨ st.statusLevel = StatusLevel.critical) :
    (monitorStep st e).statusLevel = StatusLevel.healthy
    ∨ (monitorStep st e).statusLevel = StatusLevel.critical := by
  cases e with
  | fetchResult record now =>
    cases record with
    | none => right; rfl
    | some d => exact calculateStatusLevel_not_warning d.last_heartbeat d.status now
  | subscriptionPayload d now =>
    exact calculateStatusLevel_not_warning d.last_heartbeat d.status now
  | timerTick now =>
    unfold monitorStep
    cases hs : st.systemStatus with
    | none => exact h
    | some d => exact calculateStatusLevel_not_warning d.last_heartbeat d.status now
  | systemIdChange => right; rfl

/-- Helper: folding monitor steps preserves membership of the level in
{healthy, critical}. -/
theorem foldl_monitorStep_not_warning (events : List MonitorEvent) :
    ∀ st : MonitorState,
      st.statusLevel = StatusLevel.healthy ∨ st.statusLevel = StatusLevel.critical →
      (events.foldl monitorStep st).statusLevel = StatusLevel.healthy
      ∨ (events.foldl monitorStep st).statusLevel = StatusLevel.critical := by
  induction events with
  | nil => intro st h; exact h
  | cons e t ih =>
    intro st h
    exact ih (monitorStep st e) (monitorStep_not_warning st e h)

/-- C8: starting from the initial critical state, no sequence of fetch
results, subscription payloads, timer re-derivations and systemId changes ever
sets the status level to warning — it is always healthy or critical. -/
theorem warning_level_unreachable (events : List MonitorEvent) :
    (runMonitor events).statusLevel = StatusLevel.healthy
    ∨ (runMonitor events).statusLevel = StatusLevel.critical :=
  foldl_monitorStep_not_warning events initialMonitorState (Or.inr rfl)

/-- Per-marker click bookkeeping of src/unnamed/part_001 lines 196-199: the
running click counter and whether a single-activation timer is pending. -/
structure MarkerClickState where
  clickCount : Nat
  timerPending : Bool
deriving DecidableEq, Repr

/-- An input to one marker: a discrete activation (click) or the pending
single-activation timer firing after the 300 ms window. -/
inductive MarkerEvent
  | activation
  | timeoutFire
deriving DecidableEq, Repr

/-- An observable effect of the marker gesture handling: opening the info
popup, or the navigation (area-select) event. -/
inductive MarkerOutput
  | openPopup
  | navigate (areaId : String)
deriving DecidableEq, Repr

/-- handleMarkerClick and its timeout (part_001 lines 200-220): the first
activation arms the 300 ms timer; the timer firing opens the popup and resets
the counter; a second activation before the timer fires cancels it and emits
exactly one area-select navigation. A timeoutFire with no pending timer (a
cancelled timer) does nothing. -/
def markerStep (areaId : String) (st : MarkerClickState) (e : MarkerEvent) :
    MarkerClickState × List MarkerOutput :=
  match e with
  | MarkerEvent.activation =>
    let c := st.clickCount + 1
    if c == 1 then
      ({ clickCount := c, timerPending := true }, [])
    else if c == 2 then
      ({ clickCount := 0, timerPending := false }, [MarkerOutput.navigate areaId])
    else
      ({ clickCount := c, timerPending := st.timerPending }, [])
  | MarkerEvent.timeoutFire =>
    if st.timerPending then
      ({ clickCount := 0, timerPending := false }, [MarkerOutput.openPopup])
    else
      (st, [])

/-- The state and accumulated outputs after a sequence of marker events,
starting from a fresh marker (count 0, no pending timer). -/
def runMarker (areaId : String) (events : List MarkerEvent) :
    MarkerClickState × List MarkerOutput :=
  events.foldl
    (fun acc e =>
      ((markerStep areaId acc.1 e).1, acc.2 ++ (markerStep areaId acc.1 e).2))
    ({ clickCount := 0, timerPending := false }, [])

/-- C9: one activation followed only by the timeout firing yields exactly the
popup opening and no navigation event; two activations within the window
yield exactly one navigation event, no popup, and leave no pending timer (the
single-activation timer was cancelled). -/
theorem marker_single_vs_double (areaId : String) :
    (runMarker areaId [MarkerEvent.activation, MarkerEvent.timeoutFire]).2
        = [MarkerOutput.openPopup]
    ∧ (runMarker areaId [MarkerEvent.activation, MarkerEvent.activation]).2
        = [MarkerOutput.navigate areaId]
    ∧ (runMarker areaId [MarkerEvent.activation, MarkerEvent.activation]).1
        = { clickCount := 0, timerPending := false } := by
  refine ⟨rfl, rfl, rfl⟩

/-- A parking-area record as consumed by the marker loop: coordinates and the
occupancy fields, with freeSlots possibly null. JavaScript falsiness of the
numeric and string fields is 0 for the coordinates and "" for the name. -/
structure AreaMarkerData where
  id : String
  name : String
  lat : ℚ
  lng : ℚ
  total_slots : Nat
  freeSlots : Option Nat
  occupiedSlots : Nat
  reservedSlots : Nat
  occupancyPercentage : ℚ
deriving DecidableEq, Repr

/-- The marker colors of part_001 lines 91-92. -/
inductive MarkerColor
  | red
  | amber
  | green
deriving DecidableEq, Repr

/-- part_001 lines 91-92: red above 80 percent, amber above 50, else green. -/
def occupancyColor (pct : ℚ) : MarkerColor :=
  if pct > 80 then MarkerColor.red
  else if pct > 50 then MarkerColor.amber
  else MarkerColor.green

/-- One rendered map marker: position, threshold color, and the free-slot
count shown as its label. -/
structure MapMarker where
  areaId : String
  lat : ℚ
  lng : ℚ
  color : MarkerColor
  label : Nat
deriving DecidableEq, Repr

/-- The per-area marker construction of part_001 lines 84-137: the guard
`!area.lat || !area.lng || !area.name || area.freeSlots == null` silently
skips the area; otherwise one marker is built with the occupancy-threshold
color and the free-slot count as its label. -/
def renderAreaMarker (area : AreaMarkerData) : Option MapMarker :=
  if area.lat = 0 ∨ area.lng = 0 ∨ area.name = "" ∨ area.freeSlots = none then
    none
  else
    some { areaId := area.id, lat := area.lat, lng := area.lng
           color := occupancyColor area.occupancyPercentage
           label := area.freeSlots.getD 0 }

/-- The marker loop over a list of areas: one optional marker per area. -/
def renderMarkers (areas : List AreaMarkerData) : List MapMarker :=
  areas.filterMap renderAreaMarker

/-- C10: an area with a falsy lat, lng or name (including coordinate exactly
0 and empty name) or a null freeSlots produces no marker at all; every other
area produces exactly one marker, colored red when the occupancy percentage
exceeds 80, amber when it exceeds 50, else green, labeled with the free-slot
count. -/
theorem marker_rendering (area : AreaMarkerData) :
    ((area.lat = 0 ∨ area.lng = 0 ∨ area.name = "" ∨ area.freeSlots = none) →
        renderAreaMarker area = none ∧ renderMarkers [area] = [])
    ∧ (area.lat ≠ 0 → area.lng ≠ 0 → area.name ≠ "" → ∀ n, area.freeSlots = some n →
        renderMarkers [area]
            = [{ areaId := area.id, lat := area.lat, lng := area.lng
                 color := occupancyColor area.occupancyPercentage, label := n }]
          ∧ (80 < area.occupancyPercentage →
              occupancyColor area.occupancyPercentage = MarkerColor.red)
          ∧ (area.occupancyPercentage ≤ 80 → 50 < area.occupancyPercentage →
              occupancyColor area.occupancyPercentage = MarkerColor.amber)
          ∧ (area.occupancyPercentage ≤ 50 →
              occupancyColor area.occupancyPercentage = MarkerColor.green)) := by
  constructor
  · intro hbad
    have h0 : renderAreaMarker area = none := by
      simp only [renderAreaMarker, if_pos hbad]
    exact ⟨h0, by simp [renderMarkers, h0]⟩
  · intro h1 h2 h3 n hn
    have hbad : ¬ (area.lat = 0 ∨ area.lng = 0 ∨ area.name = "" ∨ area.freeSlots = none) := by
      push_neg
      exact ⟨h1, h2, h3, by simp [hn]⟩
    have h0 : renderAreaMarker area
        = some { areaId := area.id, lat := area.lat, lng := area.lng
                 color := occupancyColor area.occupancyPercentage, label := n } := by
      unfold renderAreaMarker
      rw [if_neg hbad, hn]
      rfl
    refine ⟨by simp [renderMarkers, h0], ?_, ?_, ?_⟩
    · intro hgt
      simp only [occupancyColor, if_pos hgt]
    · intro hle hgt
      have hng : ¬ (area.occupancyPercentage > 80) := not_lt.mpr hle
      simp only [occupancyColor, if_neg hng, if_pos hgt]
    · intro hle
      have hng : ¬ (area.occupancyPercentage > 80) := not_lt.mpr (le_trans hle (by norm_num))
      have hna : ¬ (area.occupancyPercentage > 50) := not_lt.mpr hle
      simp only [occupancyColor, if_neg hng, if_neg hna]

/-- A concrete valid area: 60 percent occupancy, 4 free slots. -/
def demoArea : AreaMarkerData :=
  { id := "a1", name := "Tech Park", lat := 12, lng := 77
    total_slots := 10, freeSlots := some 4, occupiedSlots := 5, reservedSlots := 1
    occupancyPercentage := 60 }

/-- A record with latitude exactly 0, which the guard treats as falsy. -/
def zeroLatArea : AreaMarkerData :=
  { id := "a2", name := "Equator Lot", lat := 0, lng := 77
    total_slots := 5, freeSlots := some 5, occupiedSlots := 0, reservedSlots := 0
    occupancyPercentage := 0 }

/-- Witness for C10: the zero-latitude area yields no marker; the valid area
yields exactly one amber marker labeled 4. -/
theorem marker_rendering_witness :
    (renderAreaMarker zeroLatArea = none ∧ renderMarkers [zeroLatArea] = [])
    ∧ (renderMarkers [demoArea]
        = [{ areaId := "a1", lat := 12, lng := 77
             color := occupancyColor 60, label := 4 }]
      ∧ occupancyColor 60 = MarkerColor.amber) := by
  constructor
  · exact (marker_rendering zeroLatArea).1 (Or.inl rfl)
  · have h := (marker_rendering demoArea).2 (by norm_num [demoArea]) (by norm_num [demoArea])
      (by simp [demoArea]) 4 rfl
    exact ⟨h.1, h.2.2.1 (by norm_num [demoArea]) (by norm_num [demoArea])⟩

end SmartPark
